import Mathlib

/-!
Shallow embedding of the Telegram privacy-audit quiz bot (`src/pybot.py`).

The transport layer (telebot, polling, message formatting) is out of scope;
inbound updates are modelled as an `Event` type mirroring the registered
handlers, and outbound `bot.send_message` calls are modelled as structured
`OutMsg` values appended to an outbox.  Timestamps (`datetime.now()`) are
modelled as natural numbers counting seconds; `date` is the calendar-day
projection.  Python `float` statistics are modelled over `ℚ` (the divisions
involved are exact).  Dictionary lookups that can raise `KeyError` /
`IndexError` are modelled with `Option`, so a handler returns `none`
exactly when the Python code would raise.
-/

/-- One answer choice text together with its point value and risk text is
keyed by the literal Russian strings of the source; we keep them verbatim. -/
structure Question where
  id : String
  text : String
  risk_all : String
  risk_contacts : String
  risk_nobody : String
  fix : String
  deriving DecidableEq, Repr

/-- The risks dictionary of a question: lookup by answer string, `none`
models a Python `KeyError`. -/
def Question.risk_for (q : Question) (answer : String) : Option String :=
  if answer = "Все" then some q.risk_all
  else if answer = "Мои контакты" then some q.risk_contacts
  else if answer = "Никто" then some q.risk_nobody
  else none

/-- One entry of `Config.LEVELS`. -/
structure Level where
  name : String
  color : String
  desc : String
  deriving DecidableEq, Repr

namespace Config

/-- Config.QUESTIONS of the source, verbatim (texts are the source's
Russian strings). -/
def QUESTIONS : List Question := [
  { id := "phone"
    text := "📱 Кто видит ваш номер телефона?"
    risk_all := "🔴 <b>ВЫСОКИЙ РИСК</b>\n• Номер могут использовать для спама и фишинга\n• Можно найти вас в социальных сетях\n• Возможна подмена SIM-карты (SIM-swap)"
    risk_contacts := "🟡 <b>СРЕДНИЙ РИСК</b>\n• Контакты могут случайно раскрыть номер\n• При утечке телефона контактов - номер доступен"
    risk_nobody := "🟢 <b>НИЗКИЙ РИСК</b>\n• Максимальная защита номера\n• Рекомендуемая настройка"
    fix := "Настройки → Конфиденциальность → Номер телефона" },
  { id := "last_seen"
    text := "⏰ Кто видит, когда вы были в сети?"
    risk_all := "🔴 <b>ВЫСОКИЙ РИСК</b>\n• Можно отследить ваш график активности\n• Злоумышленники знают когда вы онлайн\n• Упрощает социальную инженерию"
    risk_contacts := "🟡 <b>СРЕДНИЙ РИСК</b>\n• Контакты видят вашу активность\n• Могут определить когда вы спите/работаете"
    risk_nobody := "🟢 <b>НИЗКИЙ РИСК</b>\n• Полная анонимность статуса\n• Рекомендуемая настройка"
    fix := "Настройки → Конфиденциальность → Время последнего посещения" },
  { id := "profile_photo"
    text := "🖼️ Кто видит вашу фотографию профиля?"
    risk_all := "🔴 <b>ВЫСОКИЙ РИСК</b>\n• Фото можно использовать для поиска по изображению\n• Возможность создания фейковых аккаунтов\n• Сбор биометрических данных"
    risk_contacts := "🟡 <b>СРЕДНИЙ РИСК</b>\n• Ограниченный круг видимости\n• Риск если телефон контакта скомпрометирован"
    risk_nobody := "🟢 <b>НИЗКИЙ РИСК</b>\n• Максимальная приватность\n• Рекомендуемая настройка"
    fix := "Настройки → Конфиденциальность → Фотография профиля" },
  { id := "groups"
    text := "👥 Кто может добавлять вас в группы?"
    risk_all := "🔴 <b>ВЫСОКИЙ РИСК</b>\n• Вас могут добавлять в спам-чаты\n• Мошеннические группы и фишинг\n• Потеря контроля над вступлением"
    risk_contacts := "🟡 <b>СРЕДНИЙ РИСК</b>\n• Только знакомые могут добавлять\n• Риск если контакт скомпрометирован"
    risk_nobody := "🟢 <b>НИЗКИЙ РИСК</b>\n• Полный контроль над группами\n• Рекомендуемая настройка"
    fix := "Настройки → Конфиденциальность → Группы и каналы" },
  { id := "forwarding"
    text := "🔗 Кто может создавать ссылки на ваш профиль?"
    risk_all := "🔴 <b>ВЫСОКИЙ РИСК</b>\n• Ваш профиль могут репостить где угодно\n• Упрощает сбор информации о вас\n• Спам через упоминания"
    risk_contacts := "🟡 <b>СРЕДНИЙ РИСК</b>\n• Ограниченный круг\n• Риск неконтролируемого распространения"
    risk_nobody := "🟢 <b>НИЗКИЙ РИСК</b>\n• Максимальная защита от упоминаний\n• Рекомендуемая настройка"
    fix := "Настройки → Конфиденциальность → Пересылка сообщений" }
]

/-- Config.POINTS; `none` models a Python `KeyError` for an unknown key. -/
def POINTS (answer : String) : Option Nat :=
  if answer = "Все" then some 0
  else if answer = "Мои контакты" then some 1
  else if answer = "Никто" then some 2
  else none

def level_10 : Level := { name := "🎉 ИДЕАЛЬНО", color := "🟢", desc := "Вы хакер уровня паранойи! Идеальная защита." }

def level_9 : Level := { name := "✅ ОТЛИЧНО", color := "🟢", desc := "Почти идеально. Можно расслабиться." }

def level_8 : Level := { name := "👍 ХОРОШО", color := "🟢", desc := "Хорошая защита. Небольшие риски." }

def level_7 : Level := { name := "⚠️ НОРМАЛЬНО", color := "🟡", desc := "Средний уровень. Есть что улучшить." }

def level_6 : Level := { name := "⚠️ УДОВЛЕТВОРИТЕЛЬНО", color := "🟡", desc := "Приемлемо, но нужно работать." }

def level_5 : Level := { name := "🔴 ТРЕВОГА", color := "🔴", desc := "Низкая защита. Вы в зоне риска." }

def level_4 : Level := { name := "🔴 ОПАСНО", color := "🔴", desc := "Опасный уровень. Срочно меняйте настройки!" }

def level_3 : Level := { name := "🚨 КРИТИЧЕСКИ", color := "🔴", desc := "Критически низкая защита!" }

def level_2 : Level := { name := "💀 КАТАСТРОФА", color := "💀", desc := "Ваши данные полностью уязвимы!" }

def level_1 : Level := { name := "💀 АПОКАЛИПСИС", color := "💀", desc := "Немедленно настройте приватность!" }

def level_0 : Level := { name := "☢️ ЯДЕРНЫЙ УРОВЕНЬ", color := "☢️", desc := "Вы вообще не скрываетесь?!" }

/-- Config.LEVELS as a keyed lookup; keys are the integers 10 down to 0. -/
def LEVELS (score : Int) : Option Level :=
  if score = 10 then some level_10
  else if score = 9 then some level_9
  else if score = 8 then some level_8
  else if score = 7 then some level_7
  else if score = 6 then some level_6
  else if score = 5 then some level_5
  else if score = 4 then some level_4
  else if score = 3 then some level_3
  else if score = 2 then some level_2
  else if score = 1 then some level_1
  else if score = 0 then some level_0
  else none

end Config

/-- The dict-with-default lookup `Config.LEVELS.get(score, Config.LEVELS[0])`
of `send_final_report` (`Config.LEVELS 0 = some Config.level_0`). -/
def levels_get (score : Int) : Level :=
  (Config.LEVELS score).getD Config.level_0

/-- One entry of `UserSession.answers` (`add_answer` dict). -/
structure AnswerRecord where
  question_id : String
  answer : String
  points : Nat
  timestamp : Nat
  deriving DecidableEq, Repr

/-- The mutable per-chat session object. -/
structure UserSession where
  user_id : Int
  answers : List AnswerRecord
  current_question : Nat
  score : Nat
  start_time : Nat
  username : String
  first_name : String
  deriving DecidableEq, Repr

/-- UserSession.__init__ . -/
def UserSession.init (user_id : Int) (t : Nat) : UserSession :=
  { user_id := user_id, answers := [], current_question := 0, score := 0,
    start_time := t, username := "", first_name := "" }

/-- UserSession.add_answer . -/
def add_answer (s : UserSession) (question_id : String) (answer : String)
    (points : Nat) (t : Nat) : UserSession :=
  { s with
    answers := s.answers ++ [{ question_id := question_id, answer := answer,
                               points := points, timestamp := t }],
    score := s.score + points }

/-- UserSession.is_completed . -/
def is_completed (s : UserSession) : Bool :=
  decide (s.current_question ≥ Config.QUESTIONS.length)

/-- The global `sessions` dict, as an insertion-ordered association list. -/
def SessionStore := List (Int × UserSession)

instance : DecidableEq SessionStore := by
  unfold SessionStore
  infer_instance

instance : Repr SessionStore := by
  unfold SessionStore
  infer_instance

/-- Dict lookup `sessions.get(chat_id)`. -/
def storeLookup (store : SessionStore) (k : Int) : Option UserSession :=
  match store with
  | [] => none
  | (k2, v) :: rest => if k2 = k then some v else storeLookup rest k

/-- Dict assignment `sessions[chat_id] = v` (replace in place or append). -/
def storeInsert (store : SessionStore) (k : Int) (v : UserSession) : SessionStore :=
  match store with
  | [] => [(k, v)]
  | (k2, v2) :: rest =>
    if k2 = k then (k, v) :: rest else (k2, v2) :: storeInsert rest k v

/-- Dict removal `sessions.pop(chat_id, None)`. -/
def storePop (store : SessionStore) (k : Int) : SessionStore :=
  match store with
  | [] => []
  | (k2, v2) :: rest =>
    if k2 = k then storePop rest k else (k2, v2) :: storePop rest k

/-- The list `sessions.values()`. -/
def storeValues (store : SessionStore) : List UserSession :=
  store.map Prod.snd

/-- Dict size `len(sessions)`. -/
def storeLen (store : SessionStore) : Nat :=
  store.length

/-- The per-choice tally dict built by `send_final_report`
(`answers_count`). -/
structure AnswersCount where
  all_count : Nat
  contacts_count : Nat
  nobody_count : Nat
  deriving DecidableEq, Repr

/-- The `answers_count[ans["answer"]] += 1` loop starting from counts 0;
`none` models the `KeyError` on a non-canonical recorded answer. -/
def answers_count_from (c : AnswersCount) : List AnswerRecord → Option AnswersCount
  | [] => some c
  | a :: rest =>
    if a.answer = "Все" then answers_count_from { c with all_count := c.all_count + 1 } rest
    else if a.answer = "Мои контакты" then answers_count_from { c with contacts_count := c.contacts_count + 1 } rest
    else if a.answer = "Никто" then answers_count_from { c with nobody_count := c.nobody_count + 1 } rest
    else none

def answers_count (answers : List AnswerRecord) : Option AnswersCount :=
  answers_count_from { all_count := 0, contacts_count := 0, nobody_count := 0 } answers

/-- The weak-points loop of `send_final_report`: pairs answer `i` with
`Config.QUESTIONS[i]`; `none` models the `IndexError` when `i` is out of
range (the catalog indexing happens before the points test, as in the
source). -/
def weak_points_from (i : Nat) : List AnswerRecord → Option (List (Question × AnswerRecord))
  | [] => some []
  | ans :: rest =>
    match Config.QUESTIONS.get? i with
    | none => none
    | some question =>
      match weak_points_from (i + 1) rest with
      | none => none
      | some tail => some (if ans.points < 2 then (question, ans) :: tail else tail)

/-- The structured content of the final report message (the pure data the
f-string of `send_final_report` renders). -/
structure Report where
  first_name : String
  minutes : Nat
  seconds : Nat
  score : Nat
  level : Level
  counts : AnswersCount
  weak_points : List (Question × AnswerRecord)
  visual_filled : Nat
  visual_empty : Nat
  deriving DecidableEq, Repr

/-- The report value `send_final_report` assembles for a session at time
`t`: level via the defaulted `LEVELS` lookup, duration split into minutes
and seconds, and the 10-cell visual bar with `score`-many filled cells. -/
def mkReport (t : Nat) (session : UserSession) (counts : AnswersCount)
    (wp : List (Question × AnswerRecord)) : Report :=
  { first_name := session.first_name
    minutes := (t - session.start_time) / 60
    seconds := (t - session.start_time) % 60
    score := session.score
    level := levels_get (session.score : Int)
    counts := counts
    weak_points := wp
    visual_filled := (List.range 10).countP (fun i => decide (i < session.score))
    visual_empty := ((List.range 10).filter (fun i => !decide (i < session.score))).length }

/-- Outbound messages (`bot.send_message` calls), as structured content. -/
inductive OutMsg where
  | welcome (chat_id : Int) (first_name : Option String)
  | restartAgainPrompt (chat_id : Int)
  | startPrompt (chat_id : Int)
  | cancelAck (chat_id : Int)
  | questionPrompt (chat_id : Int) (index : Nat) (question : Question)
  | riskExplanation (chat_id : Int) (answer : String) (risk_text : String) (fix : String)
  | report (chat_id : Int) (r : Report)
  | stats (chat_id : Int) (today : Nat) (average : ℚ) (percentile : ℚ)
  | adminDenied (chat_id : Int)
  | adminStats (chat_id : Int) (active : Nat) (today : Nat) (average : ℚ)
  | versionReply (chat_id : Int)
  | unknownReply (chat_id : Int)
  deriving DecidableEq, Repr

/-- The whole mutable state of the process: the `sessions` dict plus the
trace of outbound messages. -/
structure BotState where
  sessions : SessionStore
  outbox : List OutMsg
  deriving DecidableEq, Repr

def emit (st : BotState) (m : OutMsg) : BotState :=
  { st with outbox := st.outbox ++ [m] }

/-- calculate_average_score . -/
def calculate_average_score (store : SessionStore) : ℚ :=
  if store.isEmpty then 0
  else (((storeValues store).map (fun s => (s.score : ℚ))).sum) / (storeLen store : ℚ)

/-- calculate_percentile ; `lower_scores` is the source's sum of ones over
the filtered scores. -/
def calculate_percentile (store : SessionStore) (score : Int) : ℚ :=
  if store.isEmpty then 100
  else
    let scores := (storeValues store).map (fun s => s.score)
    let lower_scores := ((scores.filter (fun s => decide ((s : Int) < score))).map (fun _ => (1 : Nat))).sum
    ((lower_scores : ℚ) / (scores.length : ℚ)) * 100

/-- The `datetime.date()` projection of a timestamp in seconds. -/
def dateOf (t : Nat) : Nat := t / 86400

/-- The count of sessions started on the current calendar day
(the list comprehension in the statistics message). -/
def todayCount (store : SessionStore) (now : Nat) : Nat :=
  ((storeValues store).filter (fun s => decide (dateOf s.start_time = dateOf now))).length

/-- Python `x or d` defaulting on strings (empty string is falsy). -/
def py_or (v : Option String) (d : String) : String :=
  match v with
  | none => d
  | some s => if s = "" then d else s

/-- The session `handle_start` installs: a fresh `UserSession.__init__`
value with the two name fields set through Python `or` defaulting. -/
def fresh_session (t : Nat) (chat_id : Int) (username first_name : Option String) :
    UserSession :=
  { UserSession.init chat_id t with
    username := py_or username "",
    first_name := py_or first_name "Пользователь" }

/-- handle_start : overwrites any session for the chat with a fresh one and
sends the welcome message (which shows the raw `user.first_name`). -/
def handle_start (t : Nat) (chat_id : Int) (username first_name : Option String)
    (st : BotState) : BotState :=
  let st1 := { st with
    sessions := storeInsert st.sessions chat_id (fresh_session t chat_id username first_name) }
  emit st1 (.welcome chat_id first_name)

/-- ask_question : no-op when the session is missing or completed; the
catalog indexing is guarded by `is_completed`, hence total here. -/
def ask_question (chat_id : Int) (st : BotState) : BotState :=
  match storeLookup st.sessions chat_id with
  | none => st
  | some session =>
    if h : session.current_question < Config.QUESTIONS.length then
      emit st (.questionPrompt chat_id session.current_question
        (Config.QUESTIONS.get ⟨session.current_question, h⟩))
    else st

/-- start_check_callback . -/
def start_check_callback (chat_id : Int) (st : BotState) : BotState :=
  match storeLookup st.sessions chat_id with
  | none => emit st (.restartAgainPrompt chat_id)
  | some _ => ask_question chat_id st

/-- send_risk_explanation : `none` models the `KeyError` on
`question["risks"][answer]`. -/
def send_risk_explanation (chat_id : Int) (question : Question) (answer : String)
    (st : BotState) : Option BotState :=
  match question.risk_for answer with
  | none => none
  | some risk_text => some (emit st (.riskExplanation chat_id answer risk_text question.fix))

/-- send_final_report : builds the report for the session still looked up
in the store, then sends the statistics message whose aggregates are
computed over the store as it is at that moment. -/
def send_final_report (t : Nat) (chat_id : Int) (st : BotState) : Option BotState :=
  match storeLookup st.sessions chat_id with
  | none => some st
  | some session =>
    match answers_count session.answers, weak_points_from 0 session.answers with
    | some counts, some wp =>
      let st1 := emit st (.report chat_id (mkReport t session counts wp))
      some (emit st1 (.stats chat_id (todayCount st1.sessions t)
        (calculate_average_score st1.sessions)
        (calculate_percentile st1.sessions (session.score : Int))))
    | _, _ => none

/-- handle_answer : the dispatcher routes here exactly the four button
texts.  `none` models an uncaught exception (catalog `IndexError` or
points/risks `KeyError`). -/
def handle_answer (t : Nat) (chat_id : Int) (text : String) (st : BotState) :
    Option BotState :=
  match storeLookup st.sessions chat_id with
  | none => some (emit st (.startPrompt chat_id))
  | some session =>
    if text = "❌ Отмена" then
      let st1 := emit st (.cancelAck chat_id)
      some { st1 with sessions := storePop st1.sessions chat_id }
    else
      match Config.QUESTIONS.get? session.current_question, Config.POINTS text with
      | some question, some points =>
        let session1 := add_answer session question.id text points t
        let st1 := { st with sessions := storeInsert st.sessions chat_id session1 }
        match send_risk_explanation chat_id question text st1 with
        | none => none
        | some st2 =>
          let session2 := { session1 with current_question := session1.current_question + 1 }
          let st3 := { st2 with sessions := storeInsert st2.sessions chat_id session2 }
          if is_completed session2 then
            match send_final_report t chat_id st3 with
            | none => none
            | some st4 => some { st4 with sessions := storePop st4.sessions chat_id }
          else
            some (ask_question chat_id st3)
      | _, _ => none

/-- The static admin allow-list (empty in the source). -/
def ADMIN_IDS : List Int := []

/-- handle_stats ; the admin branch is dead code for the empty allow-list
(its uptime field depends on process wall-clock start and is omitted). -/
def handle_stats (t : Nat) (chat_id user_id : Int) (st : BotState) : BotState :=
  if user_id ∈ ADMIN_IDS then
    emit st (.adminStats chat_id (storeLen st.sessions) (todayCount st.sessions t)
      (calculate_average_score st.sessions))
  else
    emit st (.adminDenied chat_id)

/-- handle_version . -/
def handle_version (chat_id : Int) (st : BotState) : BotState :=
  emit st (.versionReply chat_id)

/-- handle_unknown ; the random choice among the four fixed responses is
abstracted away. -/
def handle_unknown (chat_id : Int) (st : BotState) : BotState :=
  emit st (.unknownReply chat_id)

/-- Inbound events, one constructor per registered handler route. -/
inductive Event where
  | start (t : Nat) (chat_id : Int) (username first_name : Option String)
  | startCheck (chat_id : Int)
  | message (t : Nat) (chat_id : Int) (text : String)
  | statsCmd (t : Nat) (chat_id user_id : Int)
  | versionCmd (chat_id : Int)
  deriving DecidableEq, Repr

/-- The four texts the `handle_answer` message filter accepts. -/
def answer_texts : List String := ["Все", "Мои контакты", "Никто", "❌ Отмена"]

/-- The dispatcher: routes an inbound event to its handler, any other text
to `handle_unknown`. -/
def step (st : BotState) (e : Event) : Option BotState :=
  match e with
  | .start t cid u f => some (handle_start t cid u f st)
  | .startCheck cid => some (start_check_callback cid st)
  | .message t cid text =>
    if text ∈ answer_texts then handle_answer t cid text st
    else some (handle_unknown cid st)
  | .statsCmd t cid uid => some (handle_stats t cid uid st)
  | .versionCmd cid => some (handle_version cid st)

/-- The state at process start: empty store, nothing sent. -/
def init0 : BotState := { sessions := [], outbox := [] }

/-- Run a list of inbound events; `none` as soon as a step raises. -/
def run (st : BotState) : List Event → Option BotState
  | [] => some st
  | e :: rest =>
    match step st e with
    | none => none
    | some st2 => run st2 rest

/-- A state the process can be in after some sequence of inbound events. -/
def Reachable (st : BotState) : Prop :=
  ∃ events, run init0 events = some st

/-- The sum of the recorded points of a list of answers. -/
def sumPoints (answers : List AnswerRecord) : Nat :=
  (answers.map (fun a => a.points)).sum

/-- An answer string the scoring accepts. -/
def canonical_answer (a : String) : Prop :=
  a = "Все" ∨ a = "Мои контакты" ∨ a = "Никто"

instance : DecidablePred canonical_answer := fun a => by
  unfold canonical_answer
  infer_instance

/-- The reports among a message trace. -/
def reportsOf (outbox : List OutMsg) : List Report :=
  outbox.filterMap (fun m =>
    match m with
    | .report _ r => some r
    | _ => none)

/-- The session after a successful answer step: `add_answer` followed by the
`current_question += 1` increment. -/
def answered (s : UserSession) (q : Question) (text : String) (p t : Nat) : UserSession :=
  let s1 := add_answer s q.id text p t
  { s1 with current_question := s1.current_question + 1 }

/-- The session invariant: below the end of the catalog, index counts the
answers, score sums them, and every recorded answer is canonical. -/
def SessionInv (s : UserSession) : Prop :=
  s.current_question < Config.QUESTIONS.length ∧
  s.answers.length = s.current_question ∧
  s.score = sumPoints s.answers ∧
  ∀ a ∈ s.answers, canonical_answer a.answer

/-- Every session held in the store satisfies the session invariant. -/
def StoreInv (store : SessionStore) : Prop :=
  ∀ cid s, storeLookup store cid = some s → SessionInv s

/-- Today-count field of a statistics message, for trace projections. -/
def statsTodayView (m : OutMsg) : Option Nat :=
  match m with
  | .stats _ today _ _ => some today
  | _ => none

/-- A question of the catalog by index (total helper for fixtures). -/
def qAt (i : Nat) : Question :=
  (Config.QUESTIONS.get? i).getD
    { id := "", text := "", risk_all := "", risk_contacts := "", risk_nobody := "", fix := "" }

/-- Fixture: the event trace of the mixed-answers end-to-end run. -/
def c9Trace : List Event :=
  [.start 0 1 (some "u") (some "Имя"), .startCheck 1,
   .message 10 1 "Все", .message 20 1 "Мои контакты", .message 30 1 "Никто",
   .message 40 1 "Все", .message 50 1 "Мои контакты"]

/-- Fixture: the session created by the first event of `c9Trace`. -/
def exSess0 : UserSession :=
  { user_id := 1, answers := [], current_question := 0, score := 0,
    start_time := 0, username := "u", first_name := "Имя" }

/-- Fixture: the state after one start event. -/
def exSt1 : BotState :=
  { sessions := [(1, exSess0)], outbox := [.welcome 1 (some "Имя")] }

/-- Fixture: answer records of a session stopped at the final question. -/
def recF0 : AnswerRecord :=
  { question_id := "phone", answer := "Все", points := 0, timestamp := 10 }

def recF1 : AnswerRecord :=
  { question_id := "last_seen", answer := "Мои контакты", points := 1, timestamp := 20 }

def recF2 : AnswerRecord :=
  { question_id := "profile_photo", answer := "Никто", points := 2, timestamp := 30 }

def recF3 : AnswerRecord :=
  { question_id := "groups", answer := "Все", points := 0, timestamp := 40 }

/-- Fixture: a session that has answered four of the five questions. -/
def exSessFin : UserSession :=
  { user_id := 1, answers := [recF0, recF1, recF2, recF3], current_question := 4,
    score := 3, start_time := 0, username := "u", first_name := "Имя" }

/-- Fixture: a state holding only `exSessFin`. -/
def exStFin : BotState := { sessions := [(1, exSessFin)], outbox := [] }

/-- Fixture: the completed session after answering the final question. -/
def ansFin : UserSession := answered exSessFin (qAt 4) "Никто" 2 50

/-- Fixture: the per-choice tally of `ansFin`. -/
def cntFin : AnswersCount := { all_count := 2, contacts_count := 1, nobody_count := 2 }

/-- Fixture: the weak points of `ansFin`. -/
def wpFin : List (Question × AnswerRecord) := [(qAt 0, recF0), (qAt 1, recF1), (qAt 3, recF3)]

/-- Fixture: the store of `exStFin` with the completed session written back. -/
def storeFin : SessionStore := storeInsert exStFin.sessions 1 ansFin

/-- Fixture: a one-session store for the percentile witness. -/
def exStoreC8 : SessionStore :=
  [(7, { user_id := 7, answers := [], current_question := 2, score := 2,
         start_time := 0, username := "", first_name := "" })]

theorem storeLookup_insert_self (store : SessionStore) (k : Int) (v : UserSession) :
    storeLookup (storeInsert store k v) k = some v := by
  induction store with
  | nil => simp [storeInsert, storeLookup]
  | cons p rest ih =>
    obtain ⟨k2, v2⟩ := p
    by_cases h : k2 = k
    · simp [storeInsert, h, storeLookup]
    · simp [storeInsert, h, storeLookup, ih]

theorem storeLookup_insert_ne (store : SessionStore) (k k2 : Int) (v : UserSession)
    (h : k2 ≠ k) :
    storeLookup (storeInsert store k v) k2 = storeLookup store k2 := by
  induction store with
  | nil => simp [storeInsert, storeLookup, Ne.symm h]
  | cons p rest ih =>
    obtain ⟨k3, v3⟩ := p
    by_cases h3 : k3 = k
    · subst h3
      simp [storeInsert, storeLookup, Ne.symm h]
    · simp only [storeInsert, if_neg h3, storeLookup]
      by_cases h4 : k3 = k2
      · simp [h4]
      · simp [h4, ih]

theorem storeLookup_pop_self (store : SessionStore) (k : Int) :
    storeLookup (storePop store k) k = none := by
  induction store with
  | nil => simp [storePop, storeLookup]
  | cons p rest ih =>
    obtain ⟨k2, v2⟩ := p
    by_cases h : k2 = k
    · simp [storePop, h, ih]
    · simp [storePop, h, storeLookup, ih]

theorem storeLookup_pop_ne (store : SessionStore) (k k2 : Int) (h : k2 ≠ k) :
    storeLookup (storePop store k) k2 = storeLookup store k2 := by
  induction store with
  | nil => simp [storePop]
  | cons p rest ih =>
    obtain ⟨k3, v3⟩ := p
    by_cases h3 : k3 = k
    · subst h3
      simp [storePop, storeLookup, Ne.symm h, ih]
    · simp only [storePop, if_neg h3, storeLookup]
      by_cases h4 : k3 = k2
      · simp [h4]
      · simp [h4, ih]

theorem storeInsert_insert (store : SessionStore) (k : Int) (v1 v2 : UserSession) :
    storeInsert (storeInsert store k v1) k v2 = storeInsert store k v2 := by
  induction store with
  | nil => simp [storeInsert]
  | cons p rest ih =>
    obtain ⟨k2, v3⟩ := p
    by_cases h : k2 = k
    · simp [storeInsert, h]
    · simp [storeInsert, h, ih]

theorem storePop_insert (store : SessionStore) (k : Int) (v : UserSession) :
    storePop (storeInsert store k v) k = storePop store k := by
  induction store with
  | nil => simp [storeInsert, storePop]
  | cons p rest ih =>
    obtain ⟨k2, v2⟩ := p
    by_cases h : k2 = k
    · subst h
      simp [storeInsert, storePop, ih]
    · simp [storeInsert, h, storePop, ih]

theorem emit_sessions (st : BotState) (m : OutMsg) : (emit st m).sessions = st.sessions := rfl

theorem ask_question_sessions (cid : Int) (st : BotState) :
    (ask_question cid st).sessions = st.sessions := by
  unfold ask_question
  cases hl : storeLookup st.sessions cid with
  | none => rfl
  | some s =>
    by_cases h : s.current_question < Config.QUESTIONS.length
    · simp [h, emit]
    · simp [h]

theorem start_check_sessions (cid : Int) (st : BotState) :
    (start_check_callback cid st).sessions = st.sessions := by
  unfold start_check_callback
  cases hl : storeLookup st.sessions cid with
  | none => rfl
  | some s => exact ask_question_sessions cid st

theorem points_of_canonical (a : String) (h : canonical_answer a) :
    ∃ p, Config.POINTS a = some p := by
  rcases h with h | h | h <;> subst h <;> exact ⟨_, rfl⟩

theorem risk_for_of_canonical (q : Question) (a : String) (h : canonical_answer a) :
    ∃ rt, q.risk_for a = some rt := by
  rcases h with h | h | h <;> subst h <;> exact ⟨_, rfl⟩

theorem canonical_ne_cancel (a : String) (h : canonical_answer a) : a ≠ "❌ Отмена" := by
  rcases h with h | h | h <;> subst h <;> decide

theorem canonical_of_mem_texts (a : String) (hmem : a ∈ answer_texts)
    (hne : a ≠ "❌ Отмена") : canonical_answer a := by
  simp only [answer_texts, List.mem_cons, List.mem_singleton] at hmem
  rcases hmem with h | h | h | h
  · exact Or.inl h
  · exact Or.inr (Or.inl h)
  · exact Or.inr (Or.inr h)
  · rcases h with h | h
    · exact absurd h hne
    · cases h

theorem sumPoints_append (l : List AnswerRecord) (a : AnswerRecord) :
    sumPoints (l ++ [a]) = sumPoints l + a.points := by
  simp [sumPoints]

theorem answers_count_from_isSome (answers : List AnswerRecord)
    (h : ∀ a ∈ answers, canonical_answer a.answer) (c : AnswersCount) :
    ∃ c2, answers_count_from c answers = some c2 := by
  induction answers generalizing c with
  | nil => exact ⟨c, rfl⟩
  | cons a rest ih =>
    have ha := h a (List.mem_cons_self a rest)
    have hrest : ∀ b ∈ rest, canonical_answer b.answer := fun b hb =>
      h b (List.mem_cons_of_mem a hb)
    rcases ha with h1 | h1 | h1 <;>
      simp only [answers_count_from, h1, if_pos, if_neg, String.reduceEq] <;>
      exact ih hrest _

theorem weak_points_from_isSome (answers : List AnswerRecord) (i : Nat)
    (h : i + answers.length ≤ Config.QUESTIONS.length) :
    ∃ wp, weak_points_from i answers = some wp := by
  induction answers generalizing i with
  | nil => exact ⟨[], rfl⟩
  | cons a rest ih =>
    have hi : i < Config.QUESTIONS.length := by
      simp only [List.length_cons] at h
      omega
    have hq : Config.QUESTIONS.get? i = some (Config.QUESTIONS.get ⟨i, hi⟩) :=
      List.get?_eq_get hi
    obtain ⟨tail, htail⟩ := ih (i + 1) (by simp only [List.length_cons] at h; omega)
    exact ⟨if a.points < 2 then (Config.QUESTIONS.get ⟨i, hi⟩, a) :: tail else tail,
      by simp only [weak_points_from, hq, htail]⟩

theorem handle_answer_cancel (t : Nat) (cid : Int) (st : BotState) (s : UserSession)
    (hlook : storeLookup st.sessions cid = some s) :
    handle_answer t cid "❌ Отмена" st =
      some { sessions := storePop st.sessions cid,
             outbox := st.outbox ++ [.cancelAck cid] } := by
  unfold handle_answer
  rw [hlook]
  simp [emit]

theorem emit_outbox (st : BotState) (m : OutMsg) :
    (emit st m).outbox = st.outbox ++ [m] := rfl

theorem send_final_report_eq (t : Nat) (cid : Int) (st : BotState) (s : UserSession)
    (counts : AnswersCount) (wp : List (Question × AnswerRecord))
    (hlook : storeLookup st.sessions cid = some s)
    (hcount : answers_count s.answers = some counts)
    (hwp : weak_points_from 0 s.answers = some wp) :
    send_final_report t cid st =
      some { sessions := st.sessions,
             outbox := st.outbox ++
               [.report cid (mkReport t s counts wp),
                .stats cid (todayCount st.sessions t)
                  (calculate_average_score st.sessions)
                  (calculate_percentile st.sessions (s.score : Int))] } := by
  unfold send_final_report
  rw [hlook]
  simp only [hcount, hwp]
  simp [emit, List.append_assoc]

theorem handle_answer_final (t : Nat) (cid : Int) (text rt : String) (st : BotState)
    (s : UserSession) (q : Question) (p : Nat) (counts : AnswersCount)
    (wp : List (Question × AnswerRecord))
    (hlook : storeLookup st.sessions cid = some s)
    (htext : canonical_answer text)
    (hq : Config.QUESTIONS.get? s.current_question = some q)
    (hp : Config.POINTS text = some p)
    (hrisk : q.risk_for text = some rt)
    (hfin : s.current_question + 1 = Config.QUESTIONS.length)
    (hcount : answers_count (answered s q text p t).answers = some counts)
    (hwp : weak_points_from 0 (answered s q text p t).answers = some wp) :
    handle_answer t cid text st =
      some { sessions := storePop st.sessions cid,
             outbox := st.outbox ++
               [.riskExplanation cid text rt q.fix,
                .report cid (mkReport t (answered s q text p t) counts wp),
                .stats cid
                  (todayCount (storeInsert st.sessions cid (answered s q text p t)) t)
                  (calculate_average_score (storeInsert st.sessions cid (answered s q text p t)))
                  (calculate_percentile (storeInsert st.sessions cid (answered s q text p t))
                    ((answered s q text p t).score : Int))] } := by
  have hcancel : ¬(text = "❌ Отмена") := canonical_ne_cancel text htext
  have hcompleted : is_completed (answered s q text p t) = true := by
    simp only [is_completed, answered, add_answer, decide_eq_true_eq]
    omega
  have hA : ({ add_answer s q.id text p t with
      current_question := (add_answer s q.id text p t).current_question + 1 } : UserSession) =
      answered s q text p t := rfl
  have hlook3 : storeLookup (storeInsert st.sessions cid (answered s q text p t)) cid =
      some (answered s q text p t) := storeLookup_insert_self _ _ _
  unfold handle_answer
  rw [hlook]
  simp only [if_neg hcancel, hq, hp]
  unfold send_risk_explanation
  rw [hrisk]
  simp only [emit_sessions, emit_outbox]
  rw [hA, storeInsert_insert]
  show (if is_completed (answered s q text p t) = true then _ else _) = _
  rw [hcompleted, if_pos rfl]
  rw [send_final_report_eq t cid _ (answered s q text p t) counts wp hlook3 hcount hwp]
  simp [storePop_insert, List.append_assoc]

theorem handle_answer_next (t : Nat) (cid : Int) (text rt : String) (st : BotState)
    (s : UserSession) (q qnext : Question) (p : Nat)
    (hlook : storeLookup st.sessions cid = some s)
    (htext : canonical_answer text)
    (hq : Config.QUESTIONS.get? s.current_question = some q)
    (hp : Config.POINTS text = some p)
    (hrisk : q.risk_for text = some rt)
    (hnext : s.current_question + 1 < Config.QUESTIONS.length)
    (hqnext : Config.QUESTIONS.get? (s.current_question + 1) = some qnext) :
    handle_answer t cid text st =
      some { sessions := storeInsert st.sessions cid (answered s q text p t),
             outbox := st.outbox ++
               [.riskExplanation cid text rt q.fix,
                .questionPrompt cid (s.current_question + 1) qnext] } := by
  have hcancel : ¬(text = "❌ Отмена") := canonical_ne_cancel text htext
  have hnotdone : is_completed (answered s q text p t) = false := by
    simp only [is_completed, answered, add_answer, decide_eq_false_iff_not]
    omega
  have hA : ({ add_answer s q.id text p t with
      current_question := (add_answer s q.id text p t).current_question + 1 } : UserSession) =
      answered s q text p t := rfl
  have hcq : (answered s q text p t).current_question = s.current_question + 1 := rfl
  unfold handle_answer
  rw [hlook]
  simp only [if_neg hcancel, hq, hp]
  unfold send_risk_explanation
  rw [hrisk]
  simp only [emit_sessions, emit_outbox]
  rw [hA, storeInsert_insert]
  show (if is_completed (answered s q text p t) = true then _ else _) = _
  rw [hnotdone, if_neg (by simp)]
  unfold ask_question
  rw [storeLookup_insert_self]
  simp only [hcq]
  rw [dif_pos hnext]
  have hget : Config.QUESTIONS.get ⟨s.current_question + 1, hnext⟩ = qnext := by
    have h2 := List.get?_eq_get (l := Config.QUESTIONS) hnext
    rw [hqnext] at h2
    exact (Option.some.inj h2).symm
  rw [hget]
  simp [emit, List.append_assoc]

theorem handle_answer_nosession (t : Nat) (cid : Int) (text : String) (st : BotState)
    (hlook : storeLookup st.sessions cid = none) :
    handle_answer t cid text st = some (emit st (.startPrompt cid)) := by
  unfold handle_answer
  rw [hlook]

theorem questions_get?_some (i : Nat) (h : i < Config.QUESTIONS.length) :
    ∃ q, Config.QUESTIONS.get? i = some q :=
  ⟨Config.QUESTIONS.get ⟨i, h⟩, List.get?_eq_get h⟩

theorem StoreInv_nil : StoreInv [] := by
  intro cid s h
  simp [storeLookup] at h

theorem StoreInv_insert (store : SessionStore) (k : Int) (v : UserSession)
    (hst : StoreInv store) (hv : SessionInv v) : StoreInv (storeInsert store k v) := by
  intro cid s h
  by_cases hk : cid = k
  · subst hk
    rw [storeLookup_insert_self] at h
    cases h
    exact hv
  · rw [storeLookup_insert_ne _ _ _ _ hk] at h
    exact hst cid s h

theorem StoreInv_pop (store : SessionStore) (k : Int) (hst : StoreInv store) :
    StoreInv (storePop store k) := by
  intro cid s h
  by_cases hk : cid = k
  · subst hk
    rw [storeLookup_pop_self] at h
    cases h
  · rw [storeLookup_pop_ne _ _ _ hk] at h
    exact hst cid s h

theorem SessionInv_fresh (t : Nat) (cid : Int) (u f : Option String) :
    SessionInv (fresh_session t cid u f) := by
  refine ⟨by show (0 : Nat) < Config.QUESTIONS.length; decide, rfl, rfl, ?_⟩
  intro a ha
  cases ha

theorem SessionInv_answered (s : UserSession) (q : Question) (text : String)
    (p t : Nat) (hs : SessionInv s) (htext : canonical_answer text)
    (hnext : s.current_question + 1 < Config.QUESTIONS.length) :
    SessionInv (answered s q text p t) := by
  obtain ⟨h1, h2, h3, h4⟩ := hs
  refine ⟨?_, ?_, ?_, ?_⟩
  · simpa [answered, add_answer] using hnext
  · simp [answered, add_answer, h2]
  · simp [answered, add_answer, sumPoints_append, h3]
  · intro a ha
    simp only [answered, add_answer, List.mem_append, List.mem_singleton] at ha
    rcases ha with ha | ha
    · exact h4 a ha
    · subst ha
      exact htext

theorem step_total_inv (st : BotState) (e : Event) (hinv : StoreInv st.sessions) :
    ∃ st2, step st e = some st2 ∧ StoreInv st2.sessions := by
  cases e with
  | start t cid u f =>
    refine ⟨_, rfl, ?_⟩
    show StoreInv (handle_start t cid u f st).sessions
    have hsess : (handle_start t cid u f st).sessions =
        storeInsert st.sessions cid (fresh_session t cid u f) := rfl
    rw [hsess]
    exact StoreInv_insert _ _ _ hinv (SessionInv_fresh t cid u f)
  | startCheck cid =>
    refine ⟨_, rfl, ?_⟩
    show StoreInv (start_check_callback cid st).sessions
    rw [start_check_sessions]
    exact hinv
  | versionCmd cid => exact ⟨_, rfl, hinv⟩
  | statsCmd t cid uid =>
    refine ⟨_, rfl, ?_⟩
    show StoreInv (handle_stats t cid uid st).sessions
    unfold handle_stats
    by_cases h : uid ∈ ADMIN_IDS <;> simp only [h, if_pos, if_neg, not_false_iff, emit_sessions] <;> exact hinv
  | message t cid text =>
    by_cases hmem : text ∈ answer_texts
    · cases hlook : storeLookup st.sessions cid with
      | none =>
        refine ⟨emit st (.startPrompt cid), ?_, hinv⟩
        simp only [step, if_pos hmem]
        exact handle_answer_nosession t cid text st hlook
      | some s =>
        by_cases hcan : text = "❌ Отмена"
        · subst hcan
          refine ⟨{ sessions := storePop st.sessions cid,
                    outbox := st.outbox ++ [.cancelAck cid] }, ?_, ?_⟩
          · simp only [step, if_pos hmem]
            exact handle_answer_cancel t cid st s hlook
          · exact StoreInv_pop _ _ hinv
        · have htext := canonical_of_mem_texts text hmem hcan
          have hs := hinv cid s hlook
          obtain ⟨h1, h2, h3, h4⟩ := hs
          obtain ⟨q, hq⟩ := questions_get?_some _ h1
          obtain ⟨p, hp⟩ := points_of_canonical text htext
          obtain ⟨rt, hrisk⟩ := risk_for_of_canonical q text htext
          have hcanon2 : ∀ a ∈ (answered s q text p t).answers, canonical_answer a.answer := by
            intro a ha
            simp only [answered, add_answer, List.mem_append, List.mem_singleton] at ha
            rcases ha with ha | ha
            · exact h4 a ha
            · subst ha
              exact htext
          by_cases hfin : s.current_question + 1 = Config.QUESTIONS.length
          · obtain ⟨counts, hcount⟩ :=
              answers_count_from_isSome (answered s q text p t).answers hcanon2
                { all_count := 0, contacts_count := 0, nobody_count := 0 }
            have hlen2 : 0 + (answered s q text p t).answers.length ≤ Config.QUESTIONS.length := by
              simp only [answered, add_answer, List.length_append, List.length_cons,
                List.length_nil]
              omega
            obtain ⟨wp, hwp⟩ := weak_points_from_isSome (answered s q text p t).answers 0 hlen2
            refine ⟨{ sessions := storePop st.sessions cid,
                      outbox := st.outbox ++
                        [.riskExplanation cid text rt q.fix,
                         .report cid (mkReport t (answered s q text p t) counts wp),
                         .stats cid
                           (todayCount (storeInsert st.sessions cid (answered s q text p t)) t)
                           (calculate_average_score (storeInsert st.sessions cid (answered s q text p t)))
                           (calculate_percentile (storeInsert st.sessions cid (answered s q text p t))
                             ((answered s q text p t).score : Int))] }, ?_, ?_⟩
            · simp only [step, if_pos hmem]
              exact handle_answer_final t cid text rt st s q p counts wp hlook htext hq hp
                hrisk hfin hcount hwp
            · exact StoreInv_pop _ _ hinv
          · have hnext : s.current_question + 1 < Config.QUESTIONS.length := by omega
            obtain ⟨qnext, hqnext⟩ := questions_get?_some _ hnext
            refine ⟨{ sessions := storeInsert st.sessions cid (answered s q text p t),
                      outbox := st.outbox ++
                        [.riskExplanation cid text rt q.fix,
                         .questionPrompt cid (s.current_question + 1) qnext] }, ?_, ?_⟩
            · simp only [step, if_pos hmem]
              exact handle_answer_next t cid text rt st s q qnext p hlook htext hq hp hrisk
                hnext hqnext
            · exact StoreInv_insert _ _ _ hinv
                (SessionInv_answered s q text p t ⟨h1, h2, h3, h4⟩ htext hnext)
    · refine ⟨handle_unknown cid st, ?_, hinv⟩
      simp only [step, if_neg hmem]

theorem run_inv (events : List Event) (st st2 : BotState) (hinv : StoreInv st.sessions)
    (hrun : run st events = some st2) : StoreInv st2.sessions := by
  induction events generalizing st with
  | nil =>
    simp only [run, Option.some.injEq] at hrun
    subst hrun
    exact hinv
  | cons e rest ih =>
    cases hstep : step st e with
    | none => simp [run, hstep] at hrun
    | some st3 =>
      simp only [run, hstep] at hrun
      obtain ⟨st3x, heq, hinv3⟩ := step_total_inv st e hinv
      rw [hstep] at heq
      cases heq
      exact ih st3 hinv3 hrun

theorem reachable_StoreInv (st : BotState) (h : Reachable st) : StoreInv st.sessions := by
  obtain ⟨events, hrun⟩ := h
  exact run_inv events init0 st StoreInv_nil hrun

theorem sum_map_ones {α : Type} (l : List α) : (l.map (fun _ => (1 : Nat))).sum = l.length := by
  induction l with
  | nil => rfl
  | cons a rest ih =>
    simp [ih]
    omega

/-- C2: in every reachable state, every session held in the store has its
score equal to the sum of the points of its recorded answers and its
current question index equal to the number of recorded answers. -/
theorem C2_session_invariant (st : BotState) (cid : Int) (s : UserSession)
    (hreach : Reachable st) (hlook : storeLookup st.sessions cid = some s) :
    s.score = sumPoints s.answers ∧ s.current_question = s.answers.length := by
  obtain ⟨h1, h2, h3, h4⟩ := reachable_StoreInv st hreach cid s hlook
  exact ⟨h3, h2.symm⟩

theorem C2_session_invariant_witness :
    exSess0.score = sumPoints exSess0.answers ∧
    exSess0.current_question = exSess0.answers.length :=
  C2_session_invariant exSt1 1 exSess0
    ⟨[.start 0 1 (some "u") (some "Имя")], by decide⟩ (by decide)

/-- C10: in every reachable state, every stored session has current
question index strictly below the catalog length, so the unguarded
catalog lookup in the answer handler is in range. -/
theorem C10_index_in_range (st : BotState) (cid : Int) (s : UserSession)
    (hreach : Reachable st) (hlook : storeLookup st.sessions cid = some s) :
    s.current_question < Config.QUESTIONS.length ∧
    (Config.QUESTIONS.get? s.current_question).isSome = true := by
  obtain ⟨h1, _, _, _⟩ := reachable_StoreInv st hreach cid s hlook
  obtain ⟨q, hq⟩ := questions_get?_some _ h1
  exact ⟨h1, by rw [hq]; rfl⟩

theorem C10_index_in_range_witness :
    exSess0.current_question < Config.QUESTIONS.length ∧
    (Config.QUESTIONS.get? exSess0.current_question).isSome = true :=
  C10_index_in_range exSt1 1 exSess0
    ⟨[.start 0 1 (some "u") (some "Имя")], by decide⟩ (by decide)

/-- C3: the start command unconditionally installs a fresh session for the
chat identifier, at question index 0 with no answers and score 0; any
prior session for that chat is no longer reachable through the store. -/
theorem C3_start_overwrites (st : BotState) (t : Nat) (cid : Int) (u f : Option String) :
    step st (.start t cid u f) = some (handle_start t cid u f st) ∧
    storeLookup (handle_start t cid u f st).sessions cid = some (fresh_session t cid u f) ∧
    (fresh_session t cid u f).current_question = 0 ∧
    (fresh_session t cid u f).answers = [] ∧
    (fresh_session t cid u f).score = 0 := by
  refine ⟨rfl, ?_, rfl, rfl, rfl⟩
  show storeLookup (storeInsert st.sessions cid (fresh_session t cid u f)) cid = _
  exact storeLookup_insert_self _ _ _

/-- C7: for every integer score outside the keyed range of the levels
mapping (negative or above 10), the key is absent and the defaulted
lookup returns the level entry for score 0. -/
theorem C7_levels_fallback (score : Int) (h : score < 0 ∨ 10 < score) :
    Config.LEVELS score = none ∧ levels_get score = Config.level_0 := by
  have hnone : Config.LEVELS score = none := by
    rcases h with h | h <;>
      · unfold Config.LEVELS
        rw [if_neg (by omega : ¬score = 10), if_neg (by omega : ¬score = 9),
          if_neg (by omega : ¬score = 8), if_neg (by omega : ¬score = 7),
          if_neg (by omega : ¬score = 6), if_neg (by omega : ¬score = 5),
          if_neg (by omega : ¬score = 4), if_neg (by omega : ¬score = 3),
          if_neg (by omega : ¬score = 2), if_neg (by omega : ¬score = 1),
          if_neg (by omega : ¬score = 0)]
  exact ⟨hnone, by unfold levels_get; rw [hnone]; rfl⟩

theorem C7_levels_fallback_witness :
    Config.LEVELS 11 = none ∧ levels_get 11 = Config.level_0 :=
  C7_levels_fallback 11 (by decide)

/-- C8: the mean over an empty store is 0, the percentile over an empty
store is 100 for every score, and over a non-empty store the percentile
is the count of stored sessions scoring strictly below the given score,
divided by the store size, times 100. -/
theorem C8_aggregates :
    calculate_average_score [] = 0 ∧
    (∀ score : Int, calculate_percentile [] score = 100) ∧
    (∀ (store : SessionStore) (score : Int), store.isEmpty = false →
      calculate_percentile store score =
        (((storeValues store).countP (fun s => decide ((s.score : Int) < score)) : ℚ) /
          (storeLen store : ℚ)) * 100) := by
  refine ⟨rfl, fun score => rfl, ?_⟩
  intro store score hne
  unfold calculate_percentile
  rw [hne]
  simp only [Bool.false_eq_true, if_false, sum_map_ones, List.countP_eq_length_filter,
    List.filter_map, List.length_map, storeLen, storeValues, Function.comp]
  rfl

theorem C8_aggregates_witness :
    calculate_average_score [] = 0 ∧
    calculate_percentile [] 5 = 100 ∧
    calculate_percentile exStoreC8 5 =
      (((storeValues exStoreC8).countP (fun s => decide ((s.score : Int) < 5)) : ℚ) /
        (storeLen exStoreC8 : ℚ)) * 100 :=
  ⟨C8_aggregates.1, C8_aggregates.2.1 5, C8_aggregates.2.2 exStoreC8 5 rfl⟩

theorem reportsOf_append (a b : List OutMsg) :
    reportsOf (a ++ b) = reportsOf a ++ reportsOf b := by
  simp [reportsOf]

theorem mem_texts_of_canonical (a : String) (h : canonical_answer a) :
    a ∈ answer_texts := by
  rcases h with h | h | h <;> subst h <;> decide

/-- C4: for any existing session at any question index, a cancel message
removes the chat's session from the store and appends exactly one
cancellation acknowledgment to the outbox — no report, no recorded
answer, no score change before the removal. -/
theorem C4_cancel (t : Nat) (cid : Int) (st : BotState) (s : UserSession)
    (hlook : storeLookup st.sessions cid = some s) :
    step st (.message t cid "❌ Отмена") =
      some { sessions := storePop st.sessions cid,
             outbox := st.outbox ++ [.cancelAck cid] } ∧
    storeLookup (storePop st.sessions cid) cid = none := by
  refine ⟨?_, storeLookup_pop_self _ _⟩
  have hmem : "❌ Отмена" ∈ answer_texts := by decide
  simp only [step, if_pos hmem]
  exact handle_answer_cancel t cid st s hlook

theorem C4_cancel_witness :
    step exSt1 (.message 5 1 "❌ Отмена") =
      some { sessions := storePop exSt1.sessions 1,
             outbox := exSt1.outbox ++ [.cancelAck 1] } ∧
    storeLookup (storePop exSt1.sessions 1) 1 = none :=
  C4_cancel 5 1 exSt1 exSess0 (by decide)

/-- C5: submitting the canonical answer to the final question appends
exactly one report to the emitted messages, and afterwards the store no
longer holds an entry for the chat identifier. -/
theorem C5_completion (t : Nat) (cid : Int) (text rt : String) (st : BotState)
    (s : UserSession) (q : Question) (p : Nat) (counts : AnswersCount)
    (wp : List (Question × AnswerRecord))
    (hlook : storeLookup st.sessions cid = some s)
    (htext : canonical_answer text)
    (hq : Config.QUESTIONS.get? s.current_question = some q)
    (hp : Config.POINTS text = some p)
    (hrisk : q.risk_for text = some rt)
    (hfin : s.current_question + 1 = Config.QUESTIONS.length)
    (hcount : answers_count (answered s q text p t).answers = some counts)
    (hwp : weak_points_from 0 (answered s q text p t).answers = some wp) :
    step st (.message t cid text) =
      some { sessions := storePop st.sessions cid,
             outbox := st.outbox ++
               [.riskExplanation cid text rt q.fix,
                .report cid (mkReport t (answered s q text p t) counts wp),
                .stats cid
                  (todayCount (storeInsert st.sessions cid (answered s q text p t)) t)
                  (calculate_average_score (storeInsert st.sessions cid (answered s q text p t)))
                  (calculate_percentile (storeInsert st.sessions cid (answered s q text p t))
                    ((answered s q text p t).score : Int))] } ∧
    reportsOf (st.outbox ++
               [.riskExplanation cid text rt q.fix,
                .report cid (mkReport t (answered s q text p t) counts wp),
                .stats cid
                  (todayCount (storeInsert st.sessions cid (answered s q text p t)) t)
                  (calculate_average_score (storeInsert st.sessions cid (answered s q text p t)))
                  (calculate_percentile (storeInsert st.sessions cid (answered s q text p t))
                    ((answered s q text p t).score : Int))]) =
      reportsOf st.outbox ++ [mkReport t (answered s q text p t) counts wp] ∧
    storeLookup (storePop st.sessions cid) cid = none := by
  refine ⟨?_, ?_, storeLookup_pop_self _ _⟩
  · simp only [step, if_pos (mem_texts_of_canonical text htext)]
    exact handle_answer_final t cid text rt st s q p counts wp hlook htext hq hp hrisk hfin
      hcount hwp
  · rw [reportsOf_append]
    rfl

/-- C6: every successful answer first emits the risk explanation for the
current question: on a non-final question it is followed by the next
prompt, and on the final question it is immediately followed by the
report. -/
theorem C6_risk_before_completion (t : Nat) (cid : Int) (text rt : String)
    (st : BotState) (s : UserSession) (q : Question) (p : Nat)
    (hlook : storeLookup st.sessions cid = some s)
    (htext : canonical_answer text)
    (hq : Config.QUESTIONS.get? s.current_question = some q)
    (hp : Config.POINTS text = some p)
    (hrisk : q.risk_for text = some rt) :
    (∀ qnext, s.current_question + 1 < Config.QUESTIONS.length →
      Config.QUESTIONS.get? (s.current_question + 1) = some qnext →
      step st (.message t cid text) =
        some { sessions := storeInsert st.sessions cid (answered s q text p t),
               outbox := st.outbox ++
                 [.riskExplanation cid text rt q.fix,
                  .questionPrompt cid (s.current_question + 1) qnext] }) ∧
    (∀ counts wp, s.current_question + 1 = Config.QUESTIONS.length →
      answers_count (answered s q text p t).answers = some counts →
      weak_points_from 0 (answered s q text p t).answers = some wp →
      step st (.message t cid text) =
        some { sessions := storePop st.sessions cid,
               outbox := st.outbox ++
                 [.riskExplanation cid text rt q.fix,
                  .report cid (mkReport t (answered s q text p t) counts wp),
                  .stats cid
                    (todayCount (storeInsert st.sessions cid (answered s q text p t)) t)
                    (calculate_average_score (storeInsert st.sessions cid (answered s q text p t)))
                    (calculate_percentile (storeInsert st.sessions cid (answered s q text p t))
                      ((answered s q text p t).score : Int))] }) := by
  constructor
  · intro qnext hnext hqnext
    simp only [step, if_pos (mem_texts_of_canonical text htext)]
    exact handle_answer_next t cid text rt st s q qnext p hlook htext hq hp hrisk hnext hqnext
  · intro counts wp hfin hcount hwp
    simp only [step, if_pos (mem_texts_of_canonical text htext)]
    exact handle_answer_final t cid text rt st s q p counts wp hlook htext hq hp hrisk hfin
      hcount hwp

/-- C1 (amended): on completion the report and the statistics message are
emitted before the session is removed: the statistics are computed over
the store that still contains the just-completed session, and only the
resulting state has that session popped. -/
theorem C1_stats_include_session (t : Nat) (cid : Int) (text rt : String)
    (st : BotState) (s : UserSession) (q : Question) (p : Nat)
    (counts : AnswersCount) (wp : List (Question × AnswerRecord))
    (hlook : storeLookup st.sessions cid = some s)
    (htext : canonical_answer text)
    (hq : Config.QUESTIONS.get? s.current_question = some q)
    (hp : Config.POINTS text = some p)
    (hrisk : q.risk_for text = some rt)
    (hfin : s.current_question + 1 = Config.QUESTIONS.length)
    (hcount : answers_count (answered s q text p t).answers = some counts)
    (hwp : weak_points_from 0 (answered s q text p t).answers = some wp) :
    storeLookup (storeInsert st.sessions cid (answered s q text p t)) cid =
      some (answered s q text p t) ∧
    step st (.message t cid text) =
      some { sessions := storePop st.sessions cid,
             outbox := st.outbox ++
               [.riskExplanation cid text rt q.fix,
                .report cid (mkReport t (answered s q text p t) counts wp),
                .stats cid
                  (todayCount (storeInsert st.sessions cid (answered s q text p t)) t)
                  (calculate_average_score (storeInsert st.sessions cid (answered s q text p t)))
                  (calculate_percentile (storeInsert st.sessions cid (answered s q text p t))
                    ((answered s q text p t).score : Int))] } := by
  refine ⟨storeLookup_insert_self _ _ _, ?_⟩
  simp only [step, if_pos (mem_texts_of_canonical text htext)]
  exact handle_answer_final t cid text rt st s q p counts wp hlook htext hq hp hrisk hfin
    hcount hwp

/-- C1 (counterexample): in the five-answer run of `c9Trace` the emitted
statistics message reports 1 check today, although the store excluding
the just-completed session is empty and its today count is 0: the
statistics are computed before the session is removed, not after. -/
theorem C1_stats_counterexample :
    (run init0 c9Trace).map (fun st => (st.outbox.filterMap statsTodayView, st.sessions)) =
      some ([1], []) ∧
    todayCount [] 50 = 0 ∧ (1 : Nat) ≠ 0 :=
  ⟨by decide, rfl, by decide⟩

/-- C9: the mixed-answer run scores 4 and its report's weak points are
exactly the four answers scoring below 2 points, each paired with the
question at the same position, in original question order. -/
theorem C9_mixed_run :
    (run init0 c9Trace).map (fun st => (reportsOf st.outbox).map (fun r =>
      (r.score, r.weak_points.map (fun pr => (pr.1.id, pr.2.answer, pr.2.points))))) =
      some [(4, [("phone", "Все", 0), ("last_seen", "Мои контакты", 1),
                 ("groups", "Все", 0), ("forwarding", "Мои контакты", 1)])] := by
  decide

theorem C5_completion_witness :
    step exStFin (.message 50 1 "Никто") =
      some { sessions := storePop exStFin.sessions 1,
             outbox := exStFin.outbox ++
               [.riskExplanation 1 "Никто" ((qAt 4).risk_nobody) ((qAt 4).fix),
                .report 1 (mkReport 50 ansFin cntFin wpFin),
                .stats 1 (todayCount storeFin 50) (calculate_average_score storeFin)
                  (calculate_percentile storeFin (ansFin.score : Int))] } ∧
    reportsOf (exStFin.outbox ++
               [.riskExplanation 1 "Никто" ((qAt 4).risk_nobody) ((qAt 4).fix),
                .report 1 (mkReport 50 ansFin cntFin wpFin),
                .stats 1 (todayCount storeFin 50) (calculate_average_score storeFin)
                  (calculate_percentile storeFin (ansFin.score : Int))]) =
      reportsOf exStFin.outbox ++ [mkReport 50 ansFin cntFin wpFin] ∧
    storeLookup (storePop exStFin.sessions 1) 1 = none :=
  C5_completion 50 1 "Никто" ((qAt 4).risk_nobody) exStFin exSessFin (qAt 4) 2 cntFin wpFin
    (by decide) (Or.inr (Or.inr rfl)) (by decide) rfl rfl rfl (by decide) (by decide)

theorem C6_risk_before_completion_witness :
    step exStFin (.message 50 1 "Никто") =
      some { sessions := storePop exStFin.sessions 1,
             outbox := exStFin.outbox ++
               [.riskExplanation 1 "Никто" ((qAt 4).risk_nobody) ((qAt 4).fix),
                .report 1 (mkReport 50 ansFin cntFin wpFin),
                .stats 1 (todayCount storeFin 50) (calculate_average_score storeFin)
                  (calculate_percentile storeFin (ansFin.score : Int))] } :=
  (C6_risk_before_completion 50 1 "Никто" ((qAt 4).risk_nobody) exStFin exSessFin (qAt 4) 2
      (by decide) (Or.inr (Or.inr rfl)) (by decide) rfl rfl).2 cntFin wpFin rfl
    (by decide) (by decide)

theorem C1_stats_include_session_witness :
    storeLookup storeFin 1 = some ansFin ∧
    step exStFin (.message 50 1 "Никто") =
      some { sessions := storePop exStFin.sessions 1,
             outbox := exStFin.outbox ++
               [.riskExplanation 1 "Никто" ((qAt 4).risk_nobody) ((qAt 4).fix),
                .report 1 (mkReport 50 ansFin cntFin wpFin),
                .stats 1 (todayCount storeFin 50) (calculate_average_score storeFin)
                  (calculate_percentile storeFin (ansFin.score : Int))] } :=
  C1_stats_include_session 50 1 "Никто" ((qAt 4).risk_nobody) exStFin exSessFin (qAt 4) 2
    cntFin wpFin (by decide) (Or.inr (Or.inr rfl)) (by decide) rfl rfl rfl
    (by decide) (by decide)
